import Mathlib

/-!
Verification of the osquery thrift RPC client
(`src/osquery/register_extension.rs`) against its specification.

The thrift-generated service stubs (module `osquery::osquery`) are not part
of the repository sources; the data types they declare are modelled from the
specification, and the RPC exchange itself is represented as an explicit
reply environment passed to each client method, so that each method is a
pure function of the session state and the exchange's result.
-/

/-- Modelled from the spec: the error taxonomy of a failed RPC exchange
(transport failure, protocol failure, remote application exception). -/
inductive ThriftError where
  | transport (msg : String)
  | protocol (msg : String)
  | application (msg : String)
deriving DecidableEq, Repr

/-- Result of one RPC exchange as produced by the thrift stub: either a
decoded reply value or a `ThriftError`. -/
inductive RpcResult (α : Type) where
  | ok (value : α)
  | err (e : ThriftError)
deriving DecidableEq, Repr

/-- Modelled from the spec: Extension Status, with fields code (0 success,
nonzero failure), optional message and optional uuid; the uuid being
optional is also witnessed by `ext_status.uuid.unwrap()` in the source. -/
structure ExtensionStatus where
  code : Int
  message : Option String
  uuid : Option Int
deriving DecidableEq, Repr

/-- One query result row: a mapping from column name to string value. -/
abbrev Row := List (String × String)

/-- Modelled from the spec: Extension Response, carrying a status and an
ordered sequence of rows; the response field being optional is witnessed by
`r.response.unwrap()` in the source. -/
structure ExtensionResponse where
  status : ExtensionStatus
  response : Option (List Row)
deriving DecidableEq, Repr

/-- Modelled from the spec: Extension Info, the identity advertised at
registration, mirroring `osquery::InternalExtensionInfo`. -/
structure InternalExtensionInfo where
  name : String
  version : String
  sdk_version : String
  min_sdk_version : String
deriving DecidableEq, Repr

/-- `InternalExtensionInfo::new` of the generated stub: a positional
constructor, in the argument order used at source lines 62 to 67. -/
def InternalExtensionInfo.new (name version sdk_version min_sdk_version : String) :
    InternalExtensionInfo :=
  ⟨name, version, sdk_version, min_sdk_version⟩

/-- Modelled from the spec: the registry sent at registration, a mapping
from registry-category name to a mapping from item name to metadata. -/
abbrev ExtensionRegistry := List (String × List (String × String))

/-- `ExtensionRegistry::default()`: the empty registry. -/
def ExtensionRegistry.default : ExtensionRegistry := []

/-- The osquery client state (`OsqueryClient`, source lines 13 to 21): the
uuid assigned by the extension manager. The boxed thrift channel is the
external environment and is passed to each method explicitly. -/
structure OsqueryClient where
  uuid : Int
deriving DecidableEq, Repr

/-- Outcome of `UnixStream::connect` on the given socket path. -/
inductive ConnectResult where
  | connected
  | noSuchEndpoint
  | permissionDenied
  | connectionRefused
deriving DecidableEq, Repr

/-- Result of a Rust function whose signature has no error channel: either
a normal return or a panic (an `unwrap` on a failure or on `None`). -/
inductive Outcome (α : Type) where
  | ok (value : α)
  | panic
deriving DecidableEq, Repr

/-- Whether the call returned any value at all to its caller. -/
def Outcome.returnsValue {α : Type} : Outcome α → Bool
  | .ok _ => true
  | .panic => false

/-- `OsqueryClient::new` (source lines 40 to 51):
`UnixStream::connect(socket_file).unwrap()` panics on a connect failure; on
success the stream is cloned, the binary protocols are built, and `Some`
client with `uuid = 0` is returned. The function never returns `None` and
never returns an error value. -/
def OsqueryClient.new (conn : ConnectResult) : Outcome (Option OsqueryClient) :=
  match conn with
  | .connected => .ok (some { uuid := 0 })
  | _ => .panic

/-- Result of one client method call on a live session: a normal return or
an `Err` return, both leaving the session alive in the state shown, or a
panic that destroys the session. -/
inductive MethodResult (α : Type) where
  | ok (st : OsqueryClient) (value : α)
  | err (st : OsqueryClient) (e : ThriftError)
  | panic
deriving DecidableEq, Repr

/-- The session state after the call, when the call returned at all. -/
def MethodResult.state {α : Type} : MethodResult α → Option OsqueryClient
  | .ok st _ => some st
  | .err st _ => some st
  | .panic => none

/-- Whether the call returned normally. -/
def MethodResult.isOk {α : Type} : MethodResult α → Bool
  | .ok _ _ => true
  | _ => false

/-- Whether the call returned an error to its caller. -/
def MethodResult.isErr {α : Type} : MethodResult α → Bool
  | .err _ _ => true
  | _ => false

/-- The `InternalExtensionInfo` built by `register_extension` at source
lines 62 to 67: the given name, version 0.0.1, sdk versions 0.0.0. -/
def registerInfo (name : String) : InternalExtensionInfo :=
  InternalExtensionInfo.new name "0.0.1" "0.0.0" "0.0.0"

/-- `OsqueryClient::register_extension` (source lines 61 to 81): builds the
info and the default registry, performs the exchange, and on `Err` prints
the failure and returns normally with the state untouched, while on `Ok`
it stores `ext_status.uuid.unwrap()` — a panic when the reply carries no
uuid. The environment `ch` maps the request actually sent to the
exchange's result. -/
def OsqueryClient.register_extension (st : OsqueryClient) (name : String)
    (ch : InternalExtensionInfo → ExtensionRegistry → RpcResult ExtensionStatus) :
    MethodResult Unit :=
  match ch (registerInfo name) ExtensionRegistry.default with
  | .err _ => .ok st ()
  | .ok ext_status =>
    match ext_status.uuid with
    | none => .panic
    | some u => .ok { st with uuid := u } ()

/-- `OsqueryClient::ping` (source lines 85 to 94): any decoded reply yields
`Ok(true)` regardless of the status it carries; an exchange failure is
printed and returned as `Err`. -/
def OsqueryClient.ping (st : OsqueryClient) (r : RpcResult ExtensionStatus) :
    MethodResult Bool :=
  match r with
  | .err e => .err st e
  | .ok _ => .ok st true

/-- `OsqueryClient::deregister_extension` (source lines 97 to 106): sends
the stored `self.uuid` on the exchange; an exchange failure is returned as
`Err`, and any decoded reply yields `Ok(true)`. -/
def OsqueryClient.deregister_extension (st : OsqueryClient)
    (ch : Int → RpcResult ExtensionStatus) : MethodResult Bool :=
  match ch st.uuid with
  | .err e => .err st e
  | .ok _ => .ok st true

/-- `OsqueryClient::query` (source lines 126 to 140): passes the sql string
opaquely; an exchange failure is returned as `Err`; on a decoded reply the
status is discarded and `r.response.unwrap()` is returned — a panic when
the reply carries no response field. -/
def OsqueryClient.query (st : OsqueryClient) (q : String)
    (ch : String → RpcResult ExtensionResponse) : MethodResult (List Row) :=
  match ch q with
  | .err e => .err st e
  | .ok r =>
    match r.response with
    | none => .panic
    | some rows => .ok st rows

/-- A reply status with success code 0 and an assigned uuid. -/
def okStatus : ExtensionStatus := { code := 0, message := none, uuid := some 42 }

/-- A reply status with a nonzero (failure) code. -/
def failStatus : ExtensionStatus :=
  { code := 1, message := some "registration failed", uuid := some 7 }

/-- C1 counterexample: a query exchange that succeeds and decodes a reply —
here one with a nonzero status code and no response field — makes `query`
panic on `r.response.unwrap()` instead of returning successfully with
response rows, refuting the claim at that decoded reply. -/
theorem c1_counterexample :
    OsqueryClient.query { uuid := 42 } "SELECT * FROM osquery_info"
      (fun _ => .ok { status := failStatus, response := none }) = .panic ∧
    (OsqueryClient.query { uuid := 42 } "SELECT * FROM osquery_info"
      (fun _ => .ok { status := failStatus, response := none })).isOk = false :=
  ⟨rfl, rfl⟩

/-- C1 (amended): for every query call whose exchange succeeds and whose
decoded reply carries a response field, `query` returns successfully with
those rows whatever the status code; `query` returns an error exactly when
the exchange fails (a nonzero application status is never raised as an
error); a decoded reply with no response field panics instead. -/
theorem c1_query_status_transparent (st : OsqueryClient) (q : String)
    (ch : String → RpcResult ExtensionResponse) :
    (∀ code msg u rows,
      ch q = .ok { status := { code := code, message := msg, uuid := u },
                   response := some rows } →
      OsqueryClient.query st q ch = .ok st rows) ∧
    (∀ e, ch q = .err e → OsqueryClient.query st q ch = .err st e) ∧
    ((OsqueryClient.query st q ch).isErr = true ↔ ∃ e, ch q = .err e) := by
  refine ⟨?_, ?_, ?_⟩
  · intro code msg u rows h
    simp [OsqueryClient.query, h]
  · intro e h
    simp [OsqueryClient.query, h]
  · unfold OsqueryClient.query
    cases h : ch q with
    | err e => simp [MethodResult.isErr]
    | ok r => cases hr : r.response <;> simp [MethodResult.isErr, hr]

/-- C1 witness: a decoded reply with status code 1 and one row is returned
successfully with that row. -/
theorem c1_witness :
    OsqueryClient.query { uuid := 42 } "SELECT * FROM osquery_info"
      (fun _ => .ok { status := { code := 1, message := some "soft failure", uuid := none },
                      response := some [[("pid", "101")]] }) =
      .ok { uuid := 42 } [[("pid", "101")]] :=
  (c1_query_status_transparent { uuid := 42 } "SELECT * FROM osquery_info" _).1
    1 (some "soft failure") none [[("pid", "101")]] rfl

/-- C2 counterexample: with an exchange that fails, `register_extension`
returns normally with the session unchanged — the failure is not
propagated to the caller, and no status is returned either (the function
returns unit), refuting the claim. -/
theorem c2_counterexample :
    OsqueryClient.register_extension { uuid := 7 } "thrust"
      (fun _ _ => .err (.transport "broken pipe")) = .ok { uuid := 7 } () ∧
    (OsqueryClient.register_extension { uuid := 7 } "thrust"
      (fun _ _ => .err (.transport "broken pipe"))).isErr = false :=
  ⟨rfl, rfl⟩

/-- C2 (amended): `register_extension` returns unit and never an error: an
exchange failure is logged and swallowed, the call returning normally with
the session unchanged; a decoded reply that carries a uuid returns
normally with that uuid stored in the session. -/
theorem c2_register_swallows_failures (st : OsqueryClient) (name : String)
    (ch : InternalExtensionInfo → ExtensionRegistry → RpcResult ExtensionStatus) :
    (∀ e, ch (registerInfo name) ExtensionRegistry.default = .err e →
      OsqueryClient.register_extension st name ch = .ok st ()) ∧
    (∀ s u, ch (registerInfo name) ExtensionRegistry.default = .ok s → s.uuid = some u →
      OsqueryClient.register_extension st name ch = .ok { uuid := u } ()) ∧
    (OsqueryClient.register_extension st name ch).isErr = false := by
  refine ⟨?_, ?_, ?_⟩
  · intro e h
    simp [OsqueryClient.register_extension, h]
  · intro s u h hu
    simp [OsqueryClient.register_extension, h, hu]
  · unfold OsqueryClient.register_extension
    cases h : ch (registerInfo name) ExtensionRegistry.default with
    | err e => simp [MethodResult.isErr]
    | ok s => cases hs : s.uuid <;> simp [MethodResult.isErr, hs]

/-- C2 witness: a protocol failure on the exchange is swallowed and the
call returns normally with the session unchanged. -/
theorem c2_witness :
    OsqueryClient.register_extension { uuid := 3 } "osq"
      (fun _ _ => .err (.protocol "bad frame")) = .ok { uuid := 3 } () :=
  (c2_register_swallows_failures { uuid := 3 } "osq" _).1 (.protocol "bad frame") rfl

/-- C3 counterexample: on a nonexistent endpoint the constructor panics on
`unwrap`; no value of any kind — in particular no ConnectionError value —
is returned to the caller, refuting the claim. -/
theorem c3_counterexample :
    OsqueryClient.new ConnectResult.noSuchEndpoint = .panic ∧
    (OsqueryClient.new ConnectResult.noSuchEndpoint).returnsValue = false :=
  ⟨rfl, rfl⟩

/-- C3 (amended): on every failing connect attempt the constructor panics —
no value, neither an error nor a session, is returned to the caller and no
session object is constructed; on a successful connect it returns a
session with uuid 0. -/
theorem c3_new_panics_on_connect_failure (c : ConnectResult)
    (h : c ≠ ConnectResult.connected) :
    OsqueryClient.new c = .panic ∧
    OsqueryClient.new ConnectResult.connected = .ok (some { uuid := 0 }) := by
  cases c with
  | connected => exact absurd rfl h
  | noSuchEndpoint => exact ⟨rfl, rfl⟩
  | permissionDenied => exact ⟨rfl, rfl⟩
  | connectionRefused => exact ⟨rfl, rfl⟩

/-- C3 witness: a refused connection panics, while a successful connect
yields the fresh session. -/
theorem c3_witness :
    OsqueryClient.new ConnectResult.connectionRefused = .panic ∧
    OsqueryClient.new ConnectResult.connected = .ok (some { uuid := 0 }) :=
  c3_new_panics_on_connect_failure ConnectResult.connectionRefused (by decide)

/-- C4: the uuid is 0 immediately after construction, ping, query and
deregister leave the session state untouched whenever the call returns,
and the only way a register call changes the state is that a decoded
register reply carried exactly the stored uuid. -/
theorem c4_uuid_lifecycle :
    OsqueryClient.new ConnectResult.connected = .ok (some { uuid := 0 }) ∧
    (∀ st r, (OsqueryClient.ping st r).state = some st) ∧
    (∀ st ch, (OsqueryClient.deregister_extension st ch).state = some st) ∧
    (∀ st q ch c, (OsqueryClient.query st q ch).state = some c → c = st) ∧
    (∀ st name ch c,
      (OsqueryClient.register_extension st name ch).state = some c →
      c.uuid = st.uuid ∨
      ∃ s, ch (registerInfo name) ExtensionRegistry.default = .ok s ∧
        s.uuid = some c.uuid) := by
  refine ⟨rfl, ?_, ?_, ?_, ?_⟩
  · intro st r
    cases r <;> rfl
  · intro st ch
    unfold OsqueryClient.deregister_extension
    cases ch st.uuid <;> rfl
  · intro st q ch c h
    cases hq : ch q with
    | err e =>
      simp [OsqueryClient.query, hq, MethodResult.state] at h
      exact h.symm
    | ok r =>
      cases hr : r.response with
      | none => simp [OsqueryClient.query, hq, hr, MethodResult.state] at h
      | some rows =>
        simp [OsqueryClient.query, hq, hr, MethodResult.state] at h
        exact h.symm
  · intro st name ch c h
    cases hc : ch (registerInfo name) ExtensionRegistry.default with
    | err e =>
      simp [OsqueryClient.register_extension, hc, MethodResult.state] at h
      exact Or.inl (by rw [h])
    | ok s =>
      cases hu : s.uuid with
      | none =>
        simp [OsqueryClient.register_extension, hc, hu, MethodResult.state] at h
      | some u =>
        simp [OsqueryClient.register_extension, hc, hu, MethodResult.state] at h
        refine Or.inr ⟨s, rfl, ?_⟩
        rw [hu, ← h]

/-- C4 witness: a decoded register reply carrying uuid 42 changes the
session uuid from 9 only because the reply carried 42. -/
theorem c4_witness :
    (42 : Int) = 9 ∨
    ∃ s, RpcResult.ok okStatus = RpcResult.ok s ∧ s.uuid = some (42 : Int) :=
  c4_uuid_lifecycle.2.2.2.2 { uuid := 9 } "thrust" (fun _ _ => .ok okStatus)
    { uuid := 42 } rfl

/-- C5: any decoded ping reply yields success regardless of the status it
carries, and ping returns an error exactly when the exchange fails. -/
theorem c5_ping_liveness (st : OsqueryClient) (r : RpcResult ExtensionStatus) :
    (∀ s, r = .ok s → OsqueryClient.ping st r = .ok st true) ∧
    (∀ e, r = .err e → OsqueryClient.ping st r = .err st e) ∧
    ((OsqueryClient.ping st r).isErr = true ↔ ∃ e, r = .err e) := by
  refine ⟨?_, ?_, ?_⟩
  · intro s h
    simp [OsqueryClient.ping, h]
  · intro e h
    simp [OsqueryClient.ping, h]
  · unfold OsqueryClient.ping
    cases r <;> simp [MethodResult.isErr]

/-- C5 witness: a decoded reply with failure status code 1 still yields
success. -/
theorem c5_witness :
    OsqueryClient.ping { uuid := 0 } (.ok failStatus) = .ok { uuid := 0 } true :=
  (c5_ping_liveness { uuid := 0 } (.ok failStatus)).1 failStatus rfl

/-- C6: deregister sends exactly the stored uuid — its outcome depends
only on the reply at `st.uuid` — and no local validation rejects a zero or
unregistered uuid: any decoded reply, whatever its status code, yields
success, and only an exchange failure yields an error. -/
theorem c6_deregister_sends_stored_uuid (st : OsqueryClient)
    (ch : Int → RpcResult ExtensionStatus) :
    (∀ s, ch st.uuid = .ok s → OsqueryClient.deregister_extension st ch = .ok st true) ∧
    (∀ e, ch st.uuid = .err e → OsqueryClient.deregister_extension st ch = .err st e) ∧
    (∀ ch2 : Int → RpcResult ExtensionStatus, ch2 st.uuid = ch st.uuid →
      OsqueryClient.deregister_extension st ch2 =
        OsqueryClient.deregister_extension st ch) := by
  refine ⟨?_, ?_, ?_⟩
  · intro s h
    simp [OsqueryClient.deregister_extension, h]
  · intro e h
    simp [OsqueryClient.deregister_extension, h]
  · intro ch2 h
    unfold OsqueryClient.deregister_extension
    rw [h]

/-- C6 witness: with the unregistered uuid 0 and a reply carrying failure
status code 1, deregister is not rejected locally and returns success. -/
theorem c6_witness :
    OsqueryClient.deregister_extension { uuid := 0 } (fun _ => .ok failStatus) =
      .ok { uuid := 0 } true :=
  (c6_deregister_sends_stored_uuid { uuid := 0 } (fun _ => .ok failStatus)).1
    failStatus rfl

/-- C7: the register request carries the given name, version 0.0.1,
sdk_version 0.0.0 and min_sdk_version 0.0.0, together with the empty
registry; the call's outcome depends only on the reply to exactly that
request. -/
theorem c7_register_request_shape (name : String) :
    (registerInfo name).name = name ∧
    (registerInfo name).version = "0.0.1" ∧
    (registerInfo name).sdk_version = "0.0.0" ∧
    (registerInfo name).min_sdk_version = "0.0.0" ∧
    ExtensionRegistry.default = ([] : ExtensionRegistry) ∧
    (∀ (st : OsqueryClient)
      (ch ch2 : InternalExtensionInfo → ExtensionRegistry → RpcResult ExtensionStatus),
      ch (registerInfo name) ExtensionRegistry.default =
        ch2 (registerInfo name) ExtensionRegistry.default →
      OsqueryClient.register_extension st name ch =
        OsqueryClient.register_extension st name ch2) := by
  refine ⟨rfl, rfl, rfl, rfl, rfl, ?_⟩
  intro st ch ch2 h
  unfold OsqueryClient.register_extension
  rw [h]

/-- C7 witness: two environments that agree on the reply to the request
actually sent produce the same call outcome. -/
theorem c7_witness :
    OsqueryClient.register_extension { uuid := 0 } "thrust" (fun _ _ => .ok okStatus) =
      OsqueryClient.register_extension { uuid := 0 } "thrust"
        (fun _ _ => .ok { code := 0, message := none, uuid := some 42 }) :=
  (c7_register_request_shape "thrust").2.2.2.2.2 { uuid := 0 } _ _ rfl

/-- C8: when the register exchange fails the call returns normally with
the session completely unchanged (uuid untouched), and a subsequent ping
on that same session still behaves as specified. -/
theorem c8_register_failure_nonfatal (st : OsqueryClient) (name : String)
    (ch : InternalExtensionInfo → ExtensionRegistry → RpcResult ExtensionStatus)
    (e : ThriftError)
    (h : ch (registerInfo name) ExtensionRegistry.default = .err e) :
    OsqueryClient.register_extension st name ch = .ok st () ∧
    (∀ s, OsqueryClient.ping st (.ok s) = .ok st true) ∧
    (∀ e2, OsqueryClient.ping st (.err e2) = .err st e2) := by
  refine ⟨?_, ?_, ?_⟩
  · simp [OsqueryClient.register_extension, h]
  · intro s
    rfl
  · intro e2
    rfl

/-- C8 witness: after a transport failure on register, the session with
uuid 5 is returned unchanged. -/
theorem c8_witness :
    OsqueryClient.register_extension { uuid := 5 } "thrust"
      (fun _ _ => .err (.transport "connection reset")) = .ok { uuid := 5 } () :=
  (c8_register_failure_nonfatal { uuid := 5 } "thrust" _
    (.transport "connection reset") rfl).1

/-- C9: a register exchange that succeeds but whose decoded status carries
no uuid makes `register_extension` panic on `ext_status.uuid.unwrap()`. -/
theorem c9_register_panics_on_missing_uuid :
    OsqueryClient.register_extension { uuid := 0 } "thrust"
      (fun _ _ => .ok { code := 0, message := none, uuid := none }) = .panic :=
  rfl

/-- C10: a query exchange that succeeds but whose decoded response carries
no response field makes `query` panic on `r.response.unwrap()`. -/
theorem c10_query_panics_on_missing_response :
    OsqueryClient.query { uuid := 42 } "SELECT name FROM processes"
      (fun _ => .ok { status := okStatus, response := none }) = .panic :=
  rfl
